import Mathlib

/-!
Verification development for the shred2 repository: a shallow embedding of
the NumberAtom reactive model (src/js/model/NumberAtom.js) and of the
electron-cloud radius mapping (getElectronShellDiameter and updateNode in
the IsotopeElectronCloudView source file), with theorems settling the
specification claims.  JavaScript numbers are modelled as exact rationals;
all arithmetic appearing in these code paths is exactly representable in
binary64, so the rational model agrees with the engine's float semantics
on every value the theorems mention.
-/

namespace Shred

/-- State of a NumberAtom: the three base count properties
(protonCountProperty, neutronCountProperty, electronCountProperty from
NumberAtom.js). -/
structure NumberAtom where
  protonCount : ℚ
  neutronCount : ℚ
  electronCount : ℚ
deriving DecidableEq, Repr

/-- Construction with explicit counts (the options object of the NumberAtom
constructor, defaults 0,0,0). -/
def NumberAtom.create (p n e : ℚ) : NumberAtom :=
  { protonCount := p, neutronCount := n, electronCount := e }

/-- Derivation function of chargeProperty: protonCount - electronCount.
A DerivedProperty recomputes from its dependencies on every change, so it
is embedded as a pure function of the current state. -/
def NumberAtom.charge (a : NumberAtom) : ℚ :=
  a.protonCount - a.electronCount

/-- Derivation function of massNumberProperty: protonCount + neutronCount. -/
def NumberAtom.massNumber (a : NumberAtom) : ℚ :=
  a.protonCount + a.neutronCount

/-- Derivation function of particleCountProperty:
protonCount + neutronCount + electronCount. -/
def NumberAtom.particleCount (a : NumberAtom) : ℚ :=
  a.protonCount + a.neutronCount + a.electronCount

/-- The equals method of NumberAtom: componentwise comparison of the three
base counts with the strict-equality operator. -/
def NumberAtom.equals (a other : NumberAtom) : Bool :=
  decide (a.protonCount = other.protonCount) &&
  decide (a.neutronCount = other.neutronCount) &&
  decide (a.electronCount = other.electronCount)

/-- Observable events performed by setSubAtomicParticleCount: the three
property writes and the atomUpdated emission. -/
inductive AtomEvent where
  | setProtonCount (v : ℚ)
  | setElectronCount (v : ℚ)
  | setNeutronCount (v : ℚ)
  | atomUpdatedEmit
deriving DecidableEq, Repr

/-- Recognizer for the atomUpdated emission event. -/
def AtomEvent.isAtomUpdated : AtomEvent → Bool
  | .atomUpdatedEmit => true
  | _ => false

/-- setSubAtomicParticleCount from NumberAtom.js: sets protonCountProperty,
then electronCountProperty, then neutronCountProperty, then emits
atomUpdated.  Returns the new state together with the ordered trace of
observable events.  The source performs no validation of the arguments. -/
def setSubAtomicParticleCount (a : NumberAtom) (protonCount neutronCount electronCount : ℚ) :
    NumberAtom × List AtomEvent :=
  let a1 := { a with protonCount := protonCount }
  let a2 := { a1 with electronCount := electronCount }
  let a3 := { a2 with neutronCount := neutronCount }
  (a3, [AtomEvent.setProtonCount protonCount,
        AtomEvent.setElectronCount electronCount,
        AtomEvent.setNeutronCount neutronCount,
        AtomEvent.atomUpdatedEmit])

/-- Teardown events of the dispose method of NumberAtom.js, one per
disposed property, in the order the source performs them. -/
inductive DisposeEvent where
  | chargePropertyDispose
  | massNumberPropertyDispose
  | particleCountPropertyDispose
  | protonCountPropertyDispose
  | neutronCountPropertyDispose
  | electronCountPropertyDispose
  | atomUpdatedDispose
deriving DecidableEq, Repr

/-- The ordered teardown trace of the dispose method of NumberAtom.js: the
three DerivedProperties are disposed first, then (per the comment in the
source, since they are dependencies of the former) the three base
NumberProperties, then the atomUpdated emitter. -/
def disposeTrace : List DisposeEvent :=
  [DisposeEvent.chargePropertyDispose,
   DisposeEvent.massNumberPropertyDispose,
   DisposeEvent.particleCountPropertyDispose,
   DisposeEvent.protonCountPropertyDispose,
   DisposeEvent.neutronCountPropertyDispose,
   DisposeEvent.electronCountPropertyDispose,
   DisposeEvent.atomUpdatedDispose]

/-- Recognizer for teardown of a derived-quantity property. -/
def DisposeEvent.isDerivedTeardown : DisposeEvent → Bool
  | .chargePropertyDispose => true
  | .massNumberPropertyDispose => true
  | .particleCountPropertyDispose => true
  | _ => false

/-- Recognizer for teardown of a base-count property. -/
def DisposeEvent.isBaseTeardown : DisposeEvent → Bool
  | .protonCountPropertyDispose => true
  | .neutronCountPropertyDispose => true
  | .electronCountPropertyDispose => true
  | _ => false

/-- Failure kind for operations on a disposed model. -/
inductive ShredFailure where
  | UseAfterDispose
deriving DecidableEq, Repr

/-- A NumberAtom together with its lifecycle state (live or disposed). -/
structure AtomModel where
  atom : NumberAtom
  disposed : Bool
deriving DecidableEq, Repr

/-- dispose from NumberAtom.js: marks the model disposed and performs the
teardown trace. -/
def AtomModel.dispose (m : AtomModel) : AtomModel × List DisposeEvent :=
  ({ m with disposed := true }, disposeTrace)

/-- Modelled from the spec: the guard that makes mutation of a disposed
Property fail is inside the third-party axon library (Property.set and
Emitter.emit assert against disposed objects), not in this repository's
sources; per the spec, any mutation after dispose fails with
UseAfterDispose.  On a live model this defers to
setSubAtomicParticleCount exactly as the source does. -/
def AtomModel.setCounts (m : AtomModel) (p n e : ℚ) :
    Except ShredFailure (AtomModel × List AtomEvent) :=
  match m.disposed with
  | true => Except.error ShredFailure.UseAfterDispose
  | false =>
    let r := setSubAtomicParticleCount m.atom p n e
    Except.ok ({ m with atom := r.1 }, r.2)

/-- Modelled from the spec: listener registration on the atomUpdated
emitter of a disposed model fails with UseAfterDispose (the guard lives in
the third-party axon Emitter, not in this repository's sources); on a live
model registration succeeds and leaves the state unchanged. -/
def AtomModel.addChangeListener (m : AtomModel) : Except ShredFailure AtomModel :=
  match m.disposed with
  | true => Except.error ShredFailure.UseAfterDispose
  | false => Except.ok m

/-! The electron-cloud radius mapping, from getElectronShellDiameter and
updateNode in the IsotopeElectronCloudView source file. -/

/-- MAX_ELECTRONS constant of the source file (10, for neon). -/
def MAX_ELECTRONS : ℕ := 10

/-- The mapElectronCountToRadius object literal of
getElectronShellDiameter, keyed by electron count; entries 3 and 4 are
written in the source as the products 134 * 0.75 and 90 * 0.97 (exact in
binary64 and as rationals).  Lookup is key membership, none for a count
with no entry. -/
def mapElectronCountToRadius (n : ℕ) : Option ℚ :=
  if n = 1 then some 38
  else if n = 2 then some 32
  else if n = 3 then some (134 * (3 / 4))
  else if n = 4 then some (90 * (97 / 100))
  else if n = 5 then some 82
  else if n = 6 then some 77
  else if n = 7 then some 75
  else if n = 8 then some 73
  else if n = 9 then some 71
  else if n = 10 then some 69
  else none

/-- A JavaScript value as it flows through the min/max for-in loop of
getElectronShellDiameter: either a number or a string.  The loop variable
ranges over the object's property KEYS, which are strings.  Every number
that reaches this loop (0, Number.MAX_VALUE, and the numeric coercions of
the digit-string keys) is an integer, so the numeric payload is an exact
integer. -/
inductive JSVal where
  | num (z : ℤ)
  | str (s : String)
deriving DecidableEq, Repr

/-- ToNumber on the strings that occur in this code path (decimal digit
strings, the keys of the radius table). -/
def strToNumber (s : String) : ℤ :=
  s.data.foldl (fun acc c => acc * 10 + ((c.toNat : ℤ) - 48)) 0

/-- JavaScript ToNumber restricted to the values of this code path. -/
def JSVal.toNumber : JSVal → ℤ
  | .num z => z
  | .str s => strToNumber s

/-- Lexicographic comparison of strings by code unit, as the JavaScript
relational operators compare two strings. -/
def charListLt : List Char → List Char → Bool
  | _, [] => false
  | [], _ :: _ => true
  | a :: as, b :: bs =>
    if a.toNat < b.toNat then true
    else if b.toNat < a.toNat then false
    else charListLt as bs

/-- The JavaScript abstract relational comparison on the values of this
code path: if both operands are strings it compares them lexicographically,
otherwise it compares their numeric coercions. -/
def jsLt : JSVal → JSVal → Bool
  | .str a, .str b => charListLt a.data b.data
  | a, b => decide (a.toNumber < b.toNumber)

/-- The JavaScript greater-than operator: a > b compares with the operands
swapped. -/
def jsGt (a b : JSVal) : Bool := jsLt b a

/-- Number.MAX_VALUE, the initial value of minShellRadius in the source:
the largest finite binary64 value, the integer (2 to the 53rd minus 1)
times 2 to the 971st, written out exactly. -/
def numberMaxValue : ℤ := 179769313486231570814527423731704356798070567525844996598917476803157260780028538760589558632766878171540458953514382464234321326889464182768467546703537516986049910576551282076245490090389328944075868508455133942304583236903222948165808559332123348274797826204144723168738177180919299881250404026184124858368

/-- The enumerable own keys of the mapElectronCountToRadius object in
for-in order: integer-like keys enumerate in ascending numeric order, as
strings. -/
def shellRadiusKeys : List String :=
  ["1", "2", "3", "4", "5", "6", "7", "8", "9", "10"]

/-- The for-in loop of getElectronShellDiameter that the source uses to
"determine the min and max radii of the supported atoms": the loop
variable (named radius in the source) ranges over the KEYS of the object,
and the comparisons radius > maxShellRadius and radius < minShellRadius
are the JavaScript relational operators on those key strings.
minShellRadius starts at Number.MAX_VALUE and maxShellRadius at 0.
Returns the final pair (minShellRadius, maxShellRadius). -/
def shellRadiusLoop : JSVal × JSVal :=
  shellRadiusKeys.foldl
    (fun mm k =>
      let mx := if jsGt (JSVal.str k) mm.2 then JSVal.str k else mm.2
      let mn := if jsLt (JSVal.str k) mm.1 then JSVal.str k else mm.1
      (mn, mx))
    (JSVal.num numberMaxValue, JSVal.num 0)

/-- The minShellRadius variable after the loop. -/
def minShellRadius : JSVal := shellRadiusLoop.1

/-- The maxShellRadius variable after the loop. -/
def maxShellRadius : JSVal := shellRadiusLoop.2

/-- Lower endpoint of the compressed output range (constant of
reduceRadiusRange). -/
def minChangedRadius : ℚ := 40

/-- Upper endpoint of the compressed output range (constant of
reduceRadiusRange). -/
def maxChangedRadius : ℚ := 55

/-- Modelled from the spec: LinearFunction comes from the third-party dot
library, not from this repository's sources; per the spec it is plain
linear interpolation mapping the interval from a1 to a2 onto the interval
from b1 to b2. -/
def linearFunction (a1 a2 b1 b2 x : ℚ) : ℚ :=
  b1 + (x - a1) / (a2 - a1) * (b2 - b1)

/-- reduceRadiusRange from the source: the compression function built from
minShellRadius and maxShellRadius (arithmetic coerces them with ToNumber)
onto the range from minChangedRadius to maxChangedRadius. -/
def reduceRadiusRange (value : ℚ) : ℚ :=
  linearFunction (minShellRadius.toNumber : ℚ) (maxShellRadius.toNumber : ℚ)
    minChangedRadius maxChangedRadius value

/-- getElectronShellDiameter from the source.  For a count with a table
entry it returns reduceRadiusRange of the entry; otherwise it asserts that
the count is at most MAX_ELECTRONS and returns 0.  The first component is
true exactly when that programming-error assertion fails (the
UnsupportedElectronCount condition); the second is the returned value. -/
def getElectronShellDiameter (numElectrons : ℕ) : Bool × ℚ :=
  match mapElectronCountToRadius numElectrons with
  | some r => (false, reduceRadiusRange r)
  | none => (decide (MAX_ELECTRONS < numElectrons), 0)

/-- The radius computed by updateNode in the source: zero electrons yield
the fixed constant 1E-5 (an arbitrary non-zero value per the source
comment); otherwise half the shell diameter is scaled through the
model-view transform (modelToViewDeltaX, a linear scaling from the
third-party phetcommon library, modelled as multiplication by its scale
factor) and then by the empirical factor 1.2. -/
def updateNodeRadius (mvtScale : ℚ) (numElectrons : ℕ) : ℚ :=
  match numElectrons with
  | 0 => 1 / 100000
  | _ => mvtScale * ((getElectronShellDiameter numElectrons).2 / 2) * (6 / 5)

end Shred

namespace Shred

/-- C2: an atom created with counts p, n, e has charge p - e, mass number
p + n, and total particle count p + n + e, and the derived getters agree
with the current base counts after every update performed through
setSubAtomicParticleCount. -/
theorem derived_quantities_consistent :
    (∀ p n e : ℕ,
      (NumberAtom.create p n e).charge = (p : ℚ) - e ∧
      (NumberAtom.create p n e).massNumber = (p : ℚ) + n ∧
      (NumberAtom.create p n e).particleCount = (p : ℚ) + n + e) ∧
    (∀ (a : NumberAtom) (p n e : ℚ),
      (setSubAtomicParticleCount a p n e).1.charge = p - e ∧
      (setSubAtomicParticleCount a p n e).1.massNumber = p + n ∧
      (setSubAtomicParticleCount a p n e).1.particleCount = p + n + e) :=
  ⟨fun _ _ _ => ⟨rfl, rfl, rfl⟩, fun _ _ _ _ => ⟨rfl, rfl, rfl⟩⟩

/-- C3 counterexample: setSubAtomicParticleCount with a negative proton
count does not fail and does not leave the state unchanged — the call
succeeds and the proton count becomes -1. -/
theorem setCounts_negative_accepted_mutates :
    (setSubAtomicParticleCount (NumberAtom.create 0 0 0) (-1) 0 0).1.protonCount = -1 ∧
    (setSubAtomicParticleCount (NumberAtom.create 0 0 0) (-1) 0 0).1 ≠
      NumberAtom.create 0 0 0 := by
  refine ⟨rfl, ?_⟩
  decide

/-- C3 amended: setSubAtomicParticleCount performs no validation of its
arguments; any call, including one with negative counts, succeeds,
replaces all three base counts with the given values, and emits the
update notification once. -/
theorem setCounts_no_validation :
    ∀ (a : NumberAtom) (p n e : ℚ),
      (setSubAtomicParticleCount a p n e).1 = NumberAtom.create p n e ∧
      (setSubAtomicParticleCount a p n e).2.countP AtomEvent.isAtomUpdated = 1 :=
  fun _ _ _ _ => ⟨rfl, rfl⟩

/-- C4: every call to setSubAtomicParticleCount replaces all three base
counts and its event trace contains exactly one atomUpdated emission,
which is the last event, after the three property writes. -/
theorem setCounts_single_batched_notification :
    ∀ (a : NumberAtom) (p n e : ℚ),
      (setSubAtomicParticleCount a p n e).1.protonCount = p ∧
      (setSubAtomicParticleCount a p n e).1.neutronCount = n ∧
      (setSubAtomicParticleCount a p n e).1.electronCount = e ∧
      (setSubAtomicParticleCount a p n e).2 =
        [AtomEvent.setProtonCount p, AtomEvent.setElectronCount e,
         AtomEvent.setNeutronCount n, AtomEvent.atomUpdatedEmit] ∧
      (setSubAtomicParticleCount a p n e).2.countP AtomEvent.isAtomUpdated = 1 ∧
      (setSubAtomicParticleCount a p n e).2.getLast? = some AtomEvent.atomUpdatedEmit :=
  fun _ _ _ _ => ⟨rfl, rfl, rfl, rfl, rfl, rfl⟩

/-- C10: calling setSubAtomicParticleCount with arguments equal to the
current counts leaves the state unchanged yet still emits atomUpdated
exactly once; the emission count is one for every call, whatever the
arguments. -/
theorem atomUpdated_emit_unconditional :
    ∀ (a : NumberAtom) (p n e : ℚ),
      (setSubAtomicParticleCount a a.protonCount a.neutronCount a.electronCount).1 = a ∧
      (setSubAtomicParticleCount a a.protonCount a.neutronCount
        a.electronCount).2.countP AtomEvent.isAtomUpdated = 1 ∧
      (setSubAtomicParticleCount a p n e).2.countP AtomEvent.isAtomUpdated = 1 :=
  fun _ _ _ _ => ⟨rfl, rfl, rfl⟩

/-- C9: equals is reflexive and symmetric, two atoms with equal base
counts are equal, and two atoms differing in any base count are unequal. -/
theorem equals_structural :
    (∀ a : NumberAtom, a.equals a = true) ∧
    (∀ a b : NumberAtom, a.equals b = b.equals a) ∧
    (∀ a b : NumberAtom, a.protonCount = b.protonCount →
      a.neutronCount = b.neutronCount → a.electronCount = b.electronCount →
      a.equals b = true) ∧
    (∀ a b : NumberAtom,
      (a.protonCount ≠ b.protonCount ∨ a.neutronCount ≠ b.neutronCount ∨
       a.electronCount ≠ b.electronCount) → a.equals b = false) := by
  have hc : ∀ x y : ℚ, decide (x = y) = decide (y = x) :=
    fun x y => decide_eq_decide.mpr eq_comm
  refine ⟨fun a => by simp [NumberAtom.equals], fun a b => ?_,
    fun a b h1 h2 h3 => by simp [NumberAtom.equals, h1, h2, h3],
    fun a b h => ?_⟩
  · simp only [NumberAtom.equals]
    rw [hc a.protonCount b.protonCount, hc a.neutronCount b.neutronCount,
      hc a.electronCount b.electronCount]
  · rcases h with h | h | h <;> simp [NumberAtom.equals, h]

/-- Witness for C9 at concrete atoms: two carbon-12 configurations are
equal; carbon-12 and carbon-13 electron variants are unequal even though
their mass numbers coincide. -/
theorem equals_structural_witness :
    (NumberAtom.create 6 6 6).equals (NumberAtom.create 6 6 6) = true ∧
    (NumberAtom.create 6 6 6).equals (NumberAtom.create 6 6 7) = false ∧
    (NumberAtom.create 6 6 6).massNumber = (NumberAtom.create 6 6 7).massNumber :=
  ⟨equals_structural.2.2.1 (NumberAtom.create 6 6 6) (NumberAtom.create 6 6 6)
      rfl rfl rfl,
   equals_structural.2.2.2 (NumberAtom.create 6 6 6) (NumberAtom.create 6 6 7)
      (Or.inr (Or.inr (by decide))),
   rfl⟩

/-- C8: after dispose, setCounts and listener registration fail with
UseAfterDispose, and the dispose trace tears down every derived-quantity
property strictly before every base-count property. -/
theorem dispose_contract :
    ∀ (m : AtomModel) (p n e : ℚ),
      (m.dispose).1.setCounts p n e = Except.error ShredFailure.UseAfterDispose ∧
      (m.dispose).1.addChangeListener = Except.error ShredFailure.UseAfterDispose ∧
      (m.dispose).2 = disposeTrace ∧
      (∀ i j : Fin disposeTrace.length,
        (disposeTrace.get i).isDerivedTeardown = true →
        (disposeTrace.get j).isBaseTeardown = true → (i : ℕ) < (j : ℕ)) := by
  intro m p n e
  refine ⟨rfl, rfl, rfl, ?_⟩
  decide

/-- Witness for C8 at a concrete model: setCounts on the disposed model
fails, and the charge teardown (index 0) precedes the proton-count
teardown (index 3). -/
theorem dispose_contract_witness :
    ((AtomModel.mk (NumberAtom.create 6 6 6) false).dispose).1.setCounts 1 2 3 =
      Except.error ShredFailure.UseAfterDispose ∧ (0 : ℕ) < 3 :=
  ⟨(dispose_contract (AtomModel.mk (NumberAtom.create 6 6 6) false) 1 2 3).1,
   (dispose_contract (AtomModel.mk (NumberAtom.create 6 6 6) false) 1 2 3).2.2.2
     ⟨0, by decide⟩ ⟨3, by decide⟩ (by decide) (by decide)⟩

/-- C5: for zero electrons updateNode sets the fixed radius 1E-5, which is
strictly positive, whatever the model-view-transform scale. -/
theorem radiusFor_zero_positive :
    ∀ mvtScale : ℚ,
      updateNodeRadius mvtScale 0 = 1 / 100000 ∧ 0 < updateNodeRadius mvtScale 0 := by
  intro s
  constructor
  · rfl
  · norm_num [updateNodeRadius]

/-- C6: the lookup table is exactly 38, 32, 100.5, 87.3, 82, 77, 75, 73,
71, 69 for electron counts 1 through 10, the products 134 times 0.75 and
90 times 0.97 written in the source equal 100.5 and 87.3 exactly, and the
table has no entry for 0 or 11. -/
theorem electron_radius_table_exact :
    mapElectronCountToRadius 1 = some 38 ∧
    mapElectronCountToRadius 2 = some 32 ∧
    mapElectronCountToRadius 3 = some 100.5 ∧
    mapElectronCountToRadius 4 = some 87.3 ∧
    mapElectronCountToRadius 5 = some 82 ∧
    mapElectronCountToRadius 6 = some 77 ∧
    mapElectronCountToRadius 7 = some 75 ∧
    mapElectronCountToRadius 8 = some 73 ∧
    mapElectronCountToRadius 9 = some 71 ∧
    mapElectronCountToRadius 10 = some 69 ∧
    (134 * (3 / 4 : ℚ) = 100.5) ∧ (90 * (97 / 100 : ℚ) = 87.3) ∧
    mapElectronCountToRadius 0 = none ∧ mapElectronCountToRadius 11 = none := by
  norm_num [mapElectronCountToRadius]

/-- C7: for every electron count strictly greater than 10 the assertion of
getElectronShellDiameter fails (the UnsupportedElectronCount condition)
and the returned value is 0. -/
theorem radiusFor_above_ten_fails :
    ∀ n : ℕ, 10 < n → getElectronShellDiameter n = (true, 0) := by
  intro n h
  obtain ⟨m, rfl⟩ : ∃ m, n = m + 11 := ⟨n - 11, by omega⟩
  have hm : mapElectronCountToRadius (m + 11) = none := by
    unfold mapElectronCountToRadius
    repeat rw [if_neg (by omega)]
  have hd : decide (MAX_ELECTRONS < m + 11) = true :=
    decide_eq_true (by simp only [MAX_ELECTRONS]; omega)
  unfold getElectronShellDiameter
  rw [hm, hd]

/-- Witness for C7 at the concrete input 11. -/
theorem radiusFor_above_ten_fails_witness :
    10 < 11 ∧ getElectronShellDiameter 11 = (true, 0) :=
  ⟨by norm_num, radiusFor_above_ten_fails 11 (by norm_num)⟩

/-- C1 (evaluation at the failing input): the min/max loop of
getElectronShellDiameter ranges over the object's keys, so it ends with
the strings 1 and 9 — not the table values 32 and 100.5 — and therefore
the compression maps from the interval 1..9, giving 182.5 for six
electrons, which is not strictly between 40 and 55. -/
theorem radiusFor_uses_key_min_max :
    minShellRadius = JSVal.str "1" ∧
    maxShellRadius = JSVal.str "9" ∧
    minShellRadius.toNumber = 1 ∧
    maxShellRadius.toNumber = 9 ∧
    (getElectronShellDiameter 6).2 = 365 / 2 ∧
    ¬(40 < (getElectronShellDiameter 6).2 ∧ (getElectronShellDiameter 6).2 < 55) := by
  have h1 : minShellRadius = JSVal.str "1" := by decide
  have h2 : maxShellRadius = JSVal.str "9" := by decide
  have h3 : minShellRadius.toNumber = 1 := by decide
  have h4 : maxShellRadius.toNumber = 9 := by decide
  have h5 : (getElectronShellDiameter 6).2 = 365 / 2 := by
    show reduceRadiusRange 77 = 365 / 2
    unfold reduceRadiusRange linearFunction
    rw [h3, h4]
    norm_num [minChangedRadius, maxChangedRadius]
  exact ⟨h1, h2, h3, h4, h5, by rw [h5]; norm_num⟩

end Shred
